import Mathlib

/-!
Shallow embedding of the Cipher-Diary frontend vault logic
(SvelteKit + Tauri). Sources embedded here:

* src/src/lib/types.ts          — data model
* src/src/lib/api.ts            — command payload construction
* src/src/lib/stores/vault.ts   — writable stores, vaultRoot/localStorage
                                  coupling, filteredEntries derived store
* src/src/lib/components/UnlockView.svelte — handleSubmit
* src/unnamed/part_003 (MainView)          — handleCreate, handleDelete,
                                  handleLock, resolveImageSource/imageCache
* src/src/routes/+page.svelte   — the app shell that mounts MainView only
                                  while the unlocked store is true

JavaScript strings are Lean String; `null`/`undefined` become Option;
promise rejection becomes Except. `Array.prototype.sort` with a
consistent comparator is modelled by the stable `List.mergeSort`.
-/

namespace CipherDiary

/-- types.ts: `type TextEncryption = 'aes256_gcm' | 'chacha20_poly1305'`. -/
inductive TextEncryption where
  | aes256_gcm
  | chacha20_poly1305
deriving DecidableEq, Repr

/-- types.ts: `interface EntrySummary`. -/
structure EntrySummary where
  id : String
  title : String
  created_at : String
  updated_at : String
  folder : Option String
  encryption : TextEncryption
deriving DecidableEq, Repr

/-- types.ts: `interface EntryDetail extends EntrySummary { content }`.
`toEntrySummary` models the rest-spread `const { content, ...summary } = entry`. -/
structure EntryDetail extends EntrySummary where
  content : String
deriving DecidableEq, Repr

/-- types.ts: `interface UnlockResponse` (second revision, with encryption info). -/
structure UnlockResponse where
  entries : List EntrySummary
  created : Bool
  last_saved : Option String
  vault_root : String
  text_encryption : TextEncryption
  available_text_encryptions : List TextEncryption
deriving Repr

/-- stores/vault.ts: the writable stores, gathered into one record.
`vaultRoot` here is the value subscribers observe; its localStorage
coupling is modelled separately by `VaultRootStore`. -/
structure VaultStores where
  unlocked : Bool
  entries : List EntrySummary
  activeEntryId : Option String
  searchTerm : String
  lastSaved : Option String
  statusMessage : Option String
  activeEntryDetail : Option EntryDetail
  textEncryption : TextEncryption
  availableTextEncryptions : List TextEncryption
  vaultRoot : Option String
deriving Repr

/-- JS truthiness of a `string | null` value: null and the empty string
are falsy, every other string is truthy. -/
def jsTruthy : Option String → Bool
  | none => false
  | some s => s != ""

/-- JS `String.prototype.trim`: drop whitespace from both ends. -/
def jsTrim (s : String) : String :=
  String.mk (((s.data.dropWhile Char.isWhitespace).reverse.dropWhile
    Char.isWhitespace).reverse)

/-- JS `String.prototype.includes`: the empty pattern is always found;
otherwise `splitOn` yields more than one piece exactly when the pattern
occurs in the string. -/
def jsIncludes (s pat : String) : Bool :=
  pat == "" || decide (1 < (s.splitOn pat).length)

/-! ## stores/vault.ts — the vaultRoot store (lines 14-49) -/

/-- State of the custom vaultRoot store: the inner writable value and the
single localStorage slot under the key `diary:vault-root`. -/
structure VaultRootStore where
  value : Option String
  storage : Option String
deriving DecidableEq, Repr

/-- stores/vault.ts `set`: `if (value) setItem(KEY, value) else removeItem(KEY)`,
then `setInner(value)`. Note the JS truthiness test: the empty string removes
the key just like null does. -/
def vaultRootSet (_st : VaultRootStore) (v : Option String) : VaultRootStore :=
  { value := v, storage := if jsTruthy v then v else none }

/-- stores/vault.ts `update`: runs the updater on the current value inside
`updateInner`, then mirrors the new value to localStorage with the same
truthiness test as `set`. -/
def vaultRootUpdate (st : VaultRootStore) (f : Option String → Option String) :
    VaultRootStore :=
  let next := f st.value
  { value := next, storage := if jsTruthy next then next else none }

/-! ## stores/vault.ts — filteredEntries (lines 51-59)

The comparator is `new Date(b.updated_at).getTime() - new Date(a.updated_at).getTime()`;
we abstract the `Date` parse as a function `getTime : String → Int` and keep the
comparator's shape: entry `a` may precede `b` exactly when
`getTime b.updated_at ≤ getTime a.updated_at` (descending). `[...items].sort(cmp)`
with a consistent comparator is the stable sort `List.mergeSort`. -/

/-- The comparator of filteredEntries as a Boolean "may precede" relation. -/
def updatedDescLe (getTime : String → Int) (a b : EntrySummary) : Bool :=
  decide (getTime b.updated_at ≤ getTime a.updated_at)

/-- The filter step of filteredEntries: with a blank term the whole store is
kept, otherwise only entries whose lowercased title contains the lowercased
term. -/
def searchFiltered (items : List EntrySummary) (term : String) : List EntrySummary :=
  if jsTrim term = "" then items
  else
    let needle := term.toLower
    items.filter (fun entry => jsIncludes entry.title.toLower needle)

/-- stores/vault.ts filteredEntries: filter by the search term, then sort by
`updated_at` descending with a stable sort. -/
def filteredEntries (getTime : String → Int) (items : List EntrySummary)
    (term : String) : List EntrySummary :=
  (searchFiltered items term).mergeSort (updatedDescLe getTime)

/-! ## api.ts — unlockVault payload (both revisions, lines 5-7 / 50-52) -/

/-- The payload `invoke('unlock_vault', { passphrase, directory })` carries.
It has exactly the two fields the api.ts signature declares; there is no
algorithm field. -/
structure UnlockPayload where
  passphrase : String
  directory : Option String
deriving DecidableEq, Repr

/-- api.ts `unlockVault(passphrase, directory?)`: builds the invoke payload.
`directory ?? undefined` sends the directory only when non-null. -/
def unlockVault (passphrase : String) (directory : Option String) : UnlockPayload :=
  { passphrase := passphrase, directory := directory }

/-! ## UnlockView.svelte — handleSubmit (lines 65-103)

Local component state of the unlock form. `error` is the local error
message, `busy` the in-flight flag. -/

structure UnlockForm where
  passphrase : String
  confirm : String
  requireConfirmation : Bool
  busy : Bool
  error : Option String
  selectedDirectory : Option String
  selectedEncryption : TextEncryption
deriving Repr

/-- The payload the UnlockView submit handler sends. The call site passes a
third argument `selectedEncryption`, but api.ts declares
`unlockVault(passphrase, directory?)` with two parameters, so the extra
argument is dropped and never reaches the payload. -/
def unlockCallPayload (form : UnlockForm) : UnlockPayload :=
  unlockVault form.passphrase form.selectedDirectory

/-- UnlockView.svelte handleSubmit. `unlockResult` stands for the outcome of
the awaited `unlockVault` call (Except models promise rejection); it is
ignored on the validation-failure paths, where the call is never issued.
Returns the new form state and the new store state. -/
def handleSubmit (form : UnlockForm) (stores : VaultStores)
    (unlockResult : Except String UnlockResponse) : UnlockForm × VaultStores :=
  let form := { form with error := none }
  if jsTrim form.passphrase = "" then
    ({ form with error := some "请输入密码短语" }, stores)
  else if form.requireConfirmation = true ∧ form.passphrase ≠ form.confirm then
    ({ form with error := some "两次输入的密码短语不一致" }, stores)
  else
    -- busy = true; textEncryption.set(selectedEncryption); await unlockVault(...)
    let stores := { stores with textEncryption := form.selectedEncryption }
    match unlockResult with
    | .ok r =>
        ({ form with
            selectedEncryption := r.text_encryption
            selectedDirectory := none
            busy := false
            passphrase := ""
            confirm := "" },
         { stores with
            entries := r.entries
            lastSaved := r.last_saved
            vaultRoot := some r.vault_root
            availableTextEncryptions := r.available_text_encryptions
            textEncryption := r.text_encryption
            activeEntryDetail := none
            unlocked := true
            activeEntryId := r.entries.head?.map EntrySummary.id
            statusMessage := some (if r.created then "新的日记库已创建" else "日记库已解锁") },
         )
    | .error msg =>
        ({ form with
            error := some (if jsIncludes msg "decryption failed" then "密码短语错误，请重试" else msg)
            busy := false
            passphrase := ""
            confirm := "" },
         stores)

/-! ## MainView (src/unnamed/part_003) — local state and handlers -/

/-- MainView local `$state` variables relevant to the claims. -/
structure MainLocal where
  localTitle : String
  localContent : String
  loadedEntryId : Option String
  saveError : Option String
  deleting : Bool
deriving Repr

/-- part_003 lines 377-387, store writes of handleLock:
`unlocked.set(false); entries.set([]); activeEntryId.set(null);
activeEntryDetail.set(null); statusMessage.set('已锁定')`. -/
def lockStores (stores : VaultStores) : VaultStores :=
  { stores with
      unlocked := false
      entries := []
      activeEntryId := none
      activeEntryDetail := none
      statusMessage := some "已锁定" }

/-- part_003 lines 377-387, local writes of handleLock:
`localTitle = ''; localContent = ''; loadedEntryId = null`. -/
def lockLocals (m : MainLocal) : MainLocal :=
  { m with localTitle := "", localContent := "", loadedEntryId := none }

/-- part_003 handleLock (lines 377-387): awaits the backend `lockVault`
(which returns nothing) and then resets stores and local buffers. -/
def handleLock (stores : VaultStores) (m : MainLocal) : VaultStores × MainLocal :=
  (lockStores stores, lockLocals m)

/-- part_003 handleCreate (lines 252-266). `createResult` is the outcome of
the awaited `createVaultEntry('新的日记', '')`. On success the summary
(rest-spread without `content`) is prepended to the entries store and the
new entry becomes the active one. -/
def handleCreate (stores : VaultStores) (m : MainLocal)
    (createResult : Except String EntryDetail) : VaultStores × MainLocal :=
  match createResult with
  | .ok entry =>
      ({ stores with
          entries := entry.toEntrySummary :: stores.entries
          activeEntryDetail := some entry
          activeEntryId := some entry.id
          statusMessage := some "已创建新的日记" },
       { m with
          loadedEntryId := some entry.id
          localTitle := entry.title
          localContent := entry.content })
  | .error msg => (stores, { m with saveError := some msg })

/-- part_003 handleDelete (lines 268-293). `currentDetail` mirrors the
activeEntryDetail store; when it is null the handler returns at once.
`confirmed` is the answer of the confirmation dialog, `deleteResult` the
outcome of the awaited `deleteVaultEntry(detail.id)`. -/
def handleDelete (stores : VaultStores) (m : MainLocal)
    (confirmed : Bool) (deleteResult : Except String Unit) : VaultStores × MainLocal :=
  match stores.activeEntryDetail with
  | none => (stores, m)
  | some detail =>
      if confirmed = false then (stores, m)
      else
        match deleteResult with
        | .ok _ =>
            let remaining := stores.entries.filter (fun item => item.id != detail.id)
            let next := remaining.head?
            ({ stores with
                entries := remaining
                activeEntryDetail := none
                activeEntryId := next.map EntrySummary.id
                statusMessage := some "日记已删除" },
             { m with
                loadedEntryId := none
                localTitle := if next.isNone then "" else m.localTitle
                localContent := if next.isNone then "" else m.localContent
                deleting := false })
        | .error msg => (stores, { m with saveError := some msg, deleting := false })

/-! ## MainView — decrypted-image cache (part_003 lines 396-431) and the
app shell (+page.svelte) that mounts MainView only while unlocked. -/

/-- Character-level helpers for the path normalisation in
resolveImageSource: `root.replace(/[\\/]+$/, '')` and
`href.replace(/^[/\\]+/, '').replace(/\\/g, '/')`. -/
def isPathSep (c : Char) : Bool :=
  c = '/' || c = '\\'

/-- Strip trailing slashes and backslashes (the `[\\/]+$` replace). -/
def stripTrailingSeps (s : String) : String :=
  String.mk ((s.data.reverse.dropWhile isPathSep).reverse)

/-- Strip leading slashes and backslashes (the `^[/\\]+` replace). -/
def stripLeadingSeps (s : String) : String :=
  String.mk (s.data.dropWhile isPathSep)

/-- Turn every backslash into a slash (the `/\\/g` replace). -/
def backslashToSlash (s : String) : String :=
  String.mk (s.data.map (fun c => if c = '\\' then '/' else c))

/-- The `/^(https?:|data:|file:|tauri)/i` test of resolveImageSource. -/
def isExternalHref (href : String) : Bool :=
  let h := href.toLower
  h.startsWith "http:" || h.startsWith "https:" || h.startsWith "data:" ||
    h.startsWith "file:" || h.startsWith "tauri"

/-- part_003 resolveImageSource (lines 398-431), acting on the component's
`imageCache` map (modelled as an association list from resolved full path to
data URL). `decrypt` stands for the awaited `decryptImage` plus the
blob-to-data-URL conversion; on rejection the handler logs and returns ''.
Returns the resolved source and the cache after the call. -/
def resolveImageSource (decrypt : String → Except String String)
    (cache : List (String × String)) (root : Option String) (href : String) :
    String × List (String × String) :=
  if href = "" then ("", cache)
  else if isExternalHref href then (href, cache)
  else
    match root with
    | none => (href, cache)
    | some r =>
        let base := stripTrailingSeps r
        let relative := backslashToSlash (stripLeadingSeps href)
        let fullPath := base ++ "/" ++ relative
        match cache.lookup fullPath with
        | some cached => (cached, cache)
        | none =>
            match decrypt fullPath with
            | .ok dataUrl => (dataUrl, (fullPath, dataUrl) :: cache)
            | .error _ => ("", cache)

/-- A mounted MainView component instance: its `$state` locals together with
the instance-level `const imageCache = new Map()`. -/
structure MainViewState where
  locals : MainLocal
  imageCache : List (String × String)
deriving Repr

/-- The state a freshly mounted MainView instance starts from: empty editing
buffers and an empty image cache (`new Map()` at component initialisation). -/
def initMainView : MainViewState :=
  { locals :=
      { localTitle := ""
        localContent := ""
        loadedEntryId := none
        saveError := none
        deleting := false }
    imageCache := [] }

/-- The whole frontend: the stores plus the MainView instance mounted by
+page.svelte, when one is mounted. -/
structure AppState where
  stores : VaultStores
  mainView : Option MainViewState
deriving Repr

/-- +page.svelte lines 48-52: `{#if $unlocked} <MainView/> {:else}
<UnlockView/> {/if}`. When unlocked is false any mounted MainView instance
is destroyed; when unlocked is true and no instance exists, a fresh one is
mounted with its initial component state. -/
def renderApp (s : AppState) : AppState :=
  if s.stores.unlocked = true then
    match s.mainView with
    | some _ => s
    | none => { s with mainView := some initMainView }
  else { s with mainView := none }

/-- handleLock as observed at the app level: the handler's store and local
writes (part_003 lines 377-387) followed by the reactive re-render of
+page.svelte, which unmounts MainView because unlocked is now false. -/
def handleLockApp (s : AppState) : AppState :=
  renderApp
    { stores := lockStores s.stores
      mainView := s.mainView.map (fun mv => { mv with locals := lockLocals mv.locals }) }

/-! ## Concrete fixtures used by witnesses and counterexamples -/

/-- A locked, empty store state. -/
def lockedStores : VaultStores :=
  { unlocked := false
    entries := []
    activeEntryId := none
    searchTerm := ""
    lastSaved := none
    statusMessage := none
    activeEntryDetail := none
    textEncryption := .aes256_gcm
    availableTextEncryptions := [.aes256_gcm]
    vaultRoot := none }

/-- A well-formed unlock form with a non-blank passphrase. -/
def wForm : UnlockForm :=
  { passphrase := "pw"
    confirm := ""
    requireConfirmation := false
    busy := false
    error := none
    selectedDirectory := none
    selectedEncryption := .aes256_gcm }

/-- An unlock form whose passphrase is blank after trimming (one space):
validation fails before any backend call. -/
def blankForm : UnlockForm :=
  { passphrase := " "
    confirm := ""
    requireConfirmation := false
    busy := false
    error := none
    selectedDirectory := none
    selectedEncryption := .aes256_gcm }

/-- A successful unlock response fixture. -/
def okResponse : UnlockResponse :=
  { entries := []
    created := true
    last_saved := none
    vault_root := "/vault"
    text_encryption := .aes256_gcm
    available_text_encryptions := [.aes256_gcm] }

/-- An entry detail fixture, used as the active entry of `c7Stores`. -/
def c7Detail : EntryDetail :=
  { id := "e1"
    title := "First"
    created_at := "2024-01-01T00:00:00Z"
    updated_at := "2024-01-03T00:00:00Z"
    folder := none
    encryption := .aes256_gcm
    content := "hello" }

/-- A second entry summary fixture. -/
def c7Other : EntrySummary :=
  { id := "e2"
    title := "Second"
    created_at := "2024-01-01T00:00:00Z"
    updated_at := "2024-01-02T00:00:00Z"
    folder := none
    encryption := .aes256_gcm }

/-- An unlocked store with two entries whose active entry is `c7Detail`. -/
def c7Stores : VaultStores :=
  { lockedStores with
      unlocked := true
      entries := [c7Detail.toEntrySummary, c7Other]
      activeEntryId := some "e1"
      activeEntryDetail := some c7Detail }

/-- MainView locals matching `c7Stores`. -/
def c7Local : MainLocal :=
  { localTitle := "First"
    localContent := "hello"
    loadedEntryId := some "e1"
    saveError := none
    deleting := false }

/-- An unlocked store fixture (as produced by a successful unlock). -/
def c3Stores : VaultStores :=
  { lockedStores with unlocked := true, vaultRoot := some "/vault" }

/-- An app state with a mounted MainView whose image cache holds a
decrypted image from the current session. -/
def c3App : AppState :=
  { stores := c3Stores
    mainView := some
      { locals := initMainView.locals
        imageCache := [("/vault/images/pic.png", "data:image/png;base64,AAAA")] } }

/-! ## Theorems -/

/-- C5: lock clears the in-memory index and session state: after handleLock
the unlocked store is false, the entries store is empty, activeEntryId and
activeEntryDetail are null, and the local title/content buffers are empty. -/
theorem handleLock_clears_session (stores : VaultStores) (m : MainLocal) :
    (handleLock stores m).1.unlocked = false ∧
    (handleLock stores m).1.entries = [] ∧
    (handleLock stores m).1.activeEntryId = none ∧
    (handleLock stores m).1.activeEntryDetail = none ∧
    (handleLock stores m).2.localTitle = "" ∧
    (handleLock stores m).2.localContent = "" :=
  ⟨rfl, rfl, rfl, rfl, rfl, rfl⟩

/-- C8: handleLock is idempotent: invoking it twice in succession leaves the
stores and the local buffers in exactly the same state as invoking it once. -/
theorem handleLock_idempotent (stores : VaultStores) (m : MainLocal) :
    handleLock (handleLock stores m).1 (handleLock stores m).2 = handleLock stores m :=
  rfl

/-- C6: a successful create prepends the new entry: the new entry's summary
is the first element of the entries store, the previous entries follow
unchanged in order, and the new entry becomes the active entry. -/
theorem handleCreate_prepends_entry (stores : VaultStores) (m : MainLocal)
    (entry : EntryDetail) :
    (handleCreate stores m (.ok entry)).1.entries
      = entry.toEntrySummary :: stores.entries ∧
    (handleCreate stores m (.ok entry)).1.activeEntryId = some entry.id ∧
    (handleCreate stores m (.ok entry)).1.activeEntryDetail = some entry :=
  ⟨rfl, rfl, rfl⟩

/-- C7: a confirmed, successful delete removes every index record carrying
the deleted id and only those, sets activeEntryDetail to null, and points
activeEntryId at the first remaining entry (null when none remain). -/
theorem handleDelete_removes_entry (stores : VaultStores) (m : MainLocal)
    (detail : EntryDetail) (hdetail : stores.activeEntryDetail = some detail) :
    (handleDelete stores m true (.ok ())).1.activeEntryDetail = none ∧
    (∀ x ∈ (handleDelete stores m true (.ok ())).1.entries, x.id ≠ detail.id) ∧
    (∀ x ∈ stores.entries, x.id ≠ detail.id →
      x ∈ (handleDelete stores m true (.ok ())).1.entries) ∧
    (handleDelete stores m true (.ok ())).1.activeEntryId
      = ((handleDelete stores m true (.ok ())).1.entries.head?).map EntrySummary.id := by
  refine ⟨?_, ?_, ?_, ?_⟩ <;> simp [handleDelete, hdetail]
  exact fun x hx hid => ⟨hx, hid⟩

/-- C7 witness: deleting the active entry from a concrete two-entry store. -/
theorem handleDelete_removes_entry_witness :
    (handleDelete c7Stores c7Local true (.ok ())).1.activeEntryDetail = none ∧
    (∀ x ∈ (handleDelete c7Stores c7Local true (.ok ())).1.entries,
      x.id ≠ c7Detail.id) ∧
    (∀ x ∈ c7Stores.entries, x.id ≠ c7Detail.id →
      x ∈ (handleDelete c7Stores c7Local true (.ok ())).1.entries) ∧
    (handleDelete c7Stores c7Local true (.ok ())).1.activeEntryId
      = ((handleDelete c7Stores c7Local true (.ok ())).1.entries.head?).map
          EntrySummary.id :=
  handleDelete_removes_entry c7Stores c7Local c7Detail rfl

/-- C1: when the unlockVault invocation rejects, the session remains locked
and no vault state is mutated: the unlocked store is still false, the
entries, vaultRoot, activeEntryId and activeEntryDetail stores keep their
previous values, and a local error message is set. -/
theorem unlockFailure_preserves_vault_state (form : UnlockForm)
    (stores : VaultStores) (msg : String)
    (hpw : jsTrim form.passphrase ≠ "")
    (hconf : ¬ (form.requireConfirmation = true ∧ form.passphrase ≠ form.confirm))
    (hlocked : stores.unlocked = false) :
    (handleSubmit form stores (.error msg)).2.unlocked = false ∧
    (handleSubmit form stores (.error msg)).2.entries = stores.entries ∧
    (handleSubmit form stores (.error msg)).2.vaultRoot = stores.vaultRoot ∧
    (handleSubmit form stores (.error msg)).2.activeEntryId = stores.activeEntryId ∧
    (handleSubmit form stores (.error msg)).2.activeEntryDetail
      = stores.activeEntryDetail ∧
    (handleSubmit form stores (.error msg)).1.error.isSome = true := by
  simp [handleSubmit, hpw, hconf, hlocked]

/-- C1 witness: a concrete rejected unlock attempt against a locked store. -/
theorem unlockFailure_preserves_vault_state_witness :
    (handleSubmit wForm lockedStores (.error "boom")).2.unlocked = false ∧
    (handleSubmit wForm lockedStores (.error "boom")).2.entries
      = lockedStores.entries ∧
    (handleSubmit wForm lockedStores (.error "boom")).2.vaultRoot
      = lockedStores.vaultRoot ∧
    (handleSubmit wForm lockedStores (.error "boom")).2.activeEntryId
      = lockedStores.activeEntryId ∧
    (handleSubmit wForm lockedStores (.error "boom")).2.activeEntryDetail
      = lockedStores.activeEntryDetail ∧
    (handleSubmit wForm lockedStores (.error "boom")).1.error.isSome = true :=
  unlockFailure_preserves_vault_state wForm lockedStores "boom"
    (by decide) (by simp [wForm]) rfl

/-- C9 counterexample: a validation failure (passphrase blank after trim)
sets the local error and returns early, leaving the passphrase buffer
holding its previous non-empty value instead of resetting it. -/
theorem handleSubmit_validation_keeps_passphrase_cex :
    (handleSubmit blankForm lockedStores (.error "unused")).1.passphrase = " " ∧
    (handleSubmit blankForm lockedStores (.error "unused")).1.error
      = some "请输入密码短语" ∧
    (" " : String) ≠ "" := by
  refine ⟨?_, ?_, by decide⟩ <;> decide

/-- C9 (amended): once validation passes — the trimmed passphrase is
non-blank and the confirmation matches when required — the passphrase and
confirmation buffers are reset to the empty string in the finally block,
whether the unlockVault call succeeds or rejects; on a validation failure
the call is never issued and the buffers keep their values. -/
theorem handleSubmit_clears_passphrase_after_attempt (form : UnlockForm)
    (stores : VaultStores) (result : Except String UnlockResponse)
    (hpw : jsTrim form.passphrase ≠ "")
    (hconf : ¬ (form.requireConfirmation = true ∧ form.passphrase ≠ form.confirm)) :
    (handleSubmit form stores result).1.passphrase = "" ∧
    (handleSubmit form stores result).1.confirm = "" := by
  cases result <;> simp [handleSubmit, hpw, hconf]

/-- C9 witness: the buffers are cleared on a concrete successful attempt. -/
theorem handleSubmit_clears_passphrase_after_attempt_witness :
    (handleSubmit wForm lockedStores (.ok okResponse)).1.passphrase = "" ∧
    (handleSubmit wForm lockedStores (.ok okResponse)).1.confirm = "" :=
  handleSubmit_clears_passphrase_after_attempt wForm lockedStores (.ok okResponse)
    (by decide) (by simp [wForm])

/-- C4: the unlock form passes `selectedEncryption` as a third argument, but
api.ts declares `unlockVault(passphrase, directory?)`, so the payload sent
to the backend carries only passphrase and directory — the selected
algorithm is dropped and two submissions differing only in the selected
algorithm produce identical payloads. -/
theorem unlock_payload_has_no_algorithm :
    unlockCallPayload
        { wForm with
            selectedDirectory := some "/vault"
            selectedEncryption := .chacha20_poly1305 }
      = { passphrase := "pw", directory := some "/vault" } ∧
    unlockCallPayload
        { wForm with
            selectedDirectory := some "/vault"
            selectedEncryption := .chacha20_poly1305 }
      = unlockCallPayload
          { wForm with
              selectedDirectory := some "/vault"
              selectedEncryption := .aes256_gcm } :=
  ⟨rfl, rfl⟩

/-- C10 counterexample: the store uses JS truthiness, so setting the empty
string — a non-null string value — removes the localStorage key instead of
storing it, while subscribers observe the empty string. -/
theorem vaultRoot_empty_string_cex :
    (vaultRootSet { value := some "/old", storage := some "/old" } (some "")).storage
      = none ∧
    (vaultRootSet { value := some "/old", storage := some "/old" } (some "")).value
      = some "" ∧
    (some "" : Option String) ≠ none := by
  refine ⟨?_, rfl, by decide⟩
  simp [vaultRootSet, jsTruthy]

/-- C10 (amended): after `set(v)` subscribers observe exactly `v`, the
localStorage key `diary:vault-root` holds `s` exactly when `v` is the
non-null, non-empty string `s`, and it is absent when `v` is null or the
empty string; `update(f)` behaves as `set` of the updated value. -/
theorem vaultRoot_localStorage_sync (st : VaultRootStore) (v : Option String)
    (f : Option String → Option String) (s : String) :
    (vaultRootSet st v).value = v ∧
    ((vaultRootSet st v).storage = some s ↔ (v = some s ∧ s ≠ "")) ∧
    vaultRootUpdate st f = vaultRootSet st (f st.value) := by
  refine ⟨rfl, ?_, rfl⟩
  cases v with
  | none => simp [vaultRootSet, jsTruthy]
  | some t =>
      by_cases ht : t = ""
      · subst ht
        simp [vaultRootSet, jsTruthy]
        rintro rfl
        simp
      · simp [vaultRootSet, jsTruthy, ht]
        rintro rfl
        exact ht

/-- C3: the decrypted-image cache is session-scoped and discarded on lock:
after handleLock and the reactive re-render of +page.svelte, no MainView
instance (and hence no imageCache) survives, and the instance mounted by any
later unlock starts from the initial component state whose imageCache is
empty — decrypted image data is never reused across a lock/unlock boundary. -/
theorem imageCache_discarded_on_lock (s : AppState) (unlockedStores : VaultStores)
    (hunlock : unlockedStores.unlocked = true) :
    (handleLockApp s).mainView = none ∧
    (renderApp { stores := unlockedStores, mainView := (handleLockApp s).mainView }).mainView
      = some initMainView ∧
    initMainView.imageCache = [] := by
  have hlock : (handleLockApp s).mainView = none := by
    simp [handleLockApp, renderApp, lockStores]
  refine ⟨hlock, ?_, rfl⟩
  rw [hlock]
  simp [renderApp, hunlock]

/-- C3 witness: a session whose mounted MainView holds a decrypted image in
its cache, locked and then unlocked again. -/
theorem imageCache_discarded_on_lock_witness :
    (handleLockApp c3App).mainView = none ∧
    (renderApp { stores := c3Stores, mainView := (handleLockApp c3App).mainView }).mainView
      = some initMainView ∧
    initMainView.imageCache = [] :=
  imageCache_discarded_on_lock c3App c3Stores rfl

/-! ## C2 — ordering of filteredEntries -/

/-- A time parse that is constant: on the fixtures below only its value at
their single shared updated_at string matters, so any parse agrees with it
there. -/
def zeroTime : String → Int := fun _ => 0

/-- Entry fixture with id "a"; shares its updated_at string with `tieB`. -/
def tieA : EntrySummary :=
  { id := "a"
    title := "Alpha"
    created_at := "2024-01-01T00:00:00Z"
    updated_at := "2024-01-02T00:00:00Z"
    folder := none
    encryption := .aes256_gcm }

/-- Entry fixture with id "b"; shares its updated_at string with `tieA`. -/
def tieB : EntrySummary :=
  { id := "b"
    title := "Beta"
    created_at := "2024-01-01T00:00:00Z"
    updated_at := "2024-01-02T00:00:00Z"
    folder := none
    encryption := .aes256_gcm }

/-- The comparator is transitive. -/
theorem updatedDescLe_trans (getTime : String → Int) :
    ∀ (x y z : EntrySummary), updatedDescLe getTime x y → updatedDescLe getTime y z →
      updatedDescLe getTime x z := by
  intro x y z hxy hyz
  simp only [updatedDescLe, decide_eq_true_eq] at *
  omega

/-- The comparator is total. -/
theorem updatedDescLe_total (getTime : String → Int) :
    ∀ (x y : EntrySummary), updatedDescLe getTime x y || updatedDescLe getTime y x := by
  intro x y
  simp only [updatedDescLe, Bool.or_eq_true, decide_eq_true_eq]
  omega

/-- C2 counterexample: two entries carry the identical updated_at string —
so every `Date` parse assigns them equal times, here instantiated with a
constant parse — and their ids order them a-before-b, yet filteredEntries
returns them in store order b-before-a: the comparator mentions only
updated_at, so ties are not broken by id. -/
theorem filteredEntries_tie_not_broken_by_id_cex :
    filteredEntries zeroTime [tieB, tieA] "" = [tieB, tieA] ∧
    tieA.updated_at = tieB.updated_at ∧
    tieA.id = "a" ∧ tieB.id = "b" ∧ tieA.id ≠ tieB.id ∧
    ([tieB, tieA] : List EntrySummary) ≠ [tieA, tieB] := by
  refine ⟨?_, rfl, rfl, rfl, by decide, by decide⟩
  show (searchFiltered [tieB, tieA] "").mergeSort (updatedDescLe zeroTime)
      = [tieB, tieA]
  rw [show searchFiltered [tieB, tieA] "" = [tieB, tieA] from by decide]
  exact List.mergeSort_of_sorted (by decide)

/-- C2 (amended): filteredEntries is ordered by updated_at (as parsed to a
time) descending and is a permutation of the search-filtered store; ties in
updated_at keep the relative order the entries held in the store (the sort
is stable), they are not broken by id. -/
theorem filteredEntries_sorted_by_updated_desc (getTime : String → Int)
    (items : List EntrySummary) (term : String) (a b : EntrySummary)
    (hab : getTime b.updated_at ≤ getTime a.updated_at)
    (hsub : List.Sublist [a, b] (searchFiltered items term)) :
    (filteredEntries getTime items term).Pairwise
      (fun x y => getTime y.updated_at ≤ getTime x.updated_at) ∧
    List.Perm (filteredEntries getTime items term) (searchFiltered items term) ∧
    List.Sublist [a, b] (filteredEntries getTime items term) := by
  refine ⟨?_, List.mergeSort_perm _ _, ?_⟩
  · have h := List.sorted_mergeSort (updatedDescLe_trans getTime)
      (updatedDescLe_total getTime) (searchFiltered items term)
    exact h.imp (fun hxy => by
      simpa only [updatedDescLe, decide_eq_true_eq] using hxy)
  · exact List.pair_sublist_mergeSort (updatedDescLe_trans getTime)
      (updatedDescLe_total getTime)
      (by simpa only [updatedDescLe, decide_eq_true_eq] using hab) hsub

/-- C2 witness: the sortedness, permutation and stability facts at a
concrete tied two-entry store. -/
theorem filteredEntries_sorted_by_updated_desc_witness :
    (filteredEntries zeroTime [tieB, tieA] "").Pairwise
      (fun x y => zeroTime y.updated_at ≤ zeroTime x.updated_at) ∧
    List.Perm (filteredEntries zeroTime [tieB, tieA] "") (searchFiltered [tieB, tieA] "") ∧
    List.Sublist [tieB, tieA] (filteredEntries zeroTime [tieB, tieA] "") :=
  filteredEntries_sorted_by_updated_desc zeroTime [tieB, tieA] "" tieB tieA
    (by decide)
    (by rw [show searchFiltered [tieB, tieA] "" = [tieB, tieA] from by decide])

end CipherDiary
